import Mathlib

/-!
Verification of the librbd journal type codec (`src/librbd/journal/Types.cc`).

The per-variant encode/decode/dump bodies, the discriminator dispatch
switches, the placeholder handling and the stringifiers are translated from
`Types.cc`.  The declarations that live in the missing header
(`librbd/journal/Types.h`: field lists, discriminator enum values, the
placeholder type constant, fixture default values) and the generic Ceph
encoding primitives (`include/encoding.h`: little-endian integer encoders,
length-value strings, the `ENCODE_START`/`DECODE_START`/`DECODE_FINISH`
envelope macros) are modelled from the specification, sections 3, 4.1, 4.2
and 6.  Bytes are `Nat` values below 256, byte sequences are `List Nat`,
machine integers are `Nat`/`Int` with explicit reduction modulo the word
size where the wire format demands it, and decoders return
`Except DecodeError (value, remaining bytes)`.
-/

/-- Modelled from the spec, section 7: the decode error taxonomy.  An
unrecognized discriminator is deliberately absent, since it is not an
error. -/
inductive DecodeError where
  | incompatibleVersion
  | truncatedInput
  | malformedPayload
deriving DecidableEq, Repr

/-- Modelled from the spec: little-endian unsigned 32-bit encoder from the
generic encoding layer (header absent from the sources). -/
def encodeU32 (n : Nat) : List Nat :=
  [n % 256, n / 256 % 256, n / 65536 % 256, n / 16777216 % 256]

/-- Modelled from the spec: little-endian unsigned 64-bit encoder. -/
def encodeU64 (n : Nat) : List Nat :=
  [n % 256, n / 256 % 256, n / 65536 % 256, n / 16777216 % 256,
   n / 4294967296 % 256, n / 1099511627776 % 256,
   n / 281474976710656 % 256, n / 72057594037927936 % 256]

/-- Modelled from the spec: signed 32-bit values travel as their
two-complement unsigned image. -/
def encodeI32 (i : Int) : List Nat :=
  encodeU32 (i % 4294967296).toNat

/-- Modelled from the spec: signed 64-bit values travel as their
two-complement unsigned image. -/
def encodeI64 (i : Int) : List Nat :=
  encodeU64 (i % 18446744073709551616).toNat

/-- Modelled from the spec: strings and data blobs travel as a u32 byte
count followed by the raw bytes. -/
def encodeBytesLV (s : List Nat) : List Nat :=
  encodeU32 s.length ++ s

/-- Modelled from the spec: read one byte. -/
def decodeU8 : List Nat → Except DecodeError (Nat × List Nat)
  | [] => .error .truncatedInput
  | b :: r => .ok (b, r)

/-- Modelled from the spec: read a little-endian u32. -/
def decodeU32 : List Nat → Except DecodeError (Nat × List Nat)
  | b0 :: b1 :: b2 :: b3 :: r =>
      .ok (b0 + 256 * b1 + 65536 * b2 + 16777216 * b3, r)
  | _ => .error .truncatedInput

/-- Modelled from the spec: read a little-endian u64. -/
def decodeU64 : List Nat → Except DecodeError (Nat × List Nat)
  | b0 :: b1 :: b2 :: b3 :: b4 :: b5 :: b6 :: b7 :: r =>
      .ok (b0 + 256 * b1 + 65536 * b2 + 16777216 * b3 +
           4294967296 * b4 + 1099511627776 * b5 +
           281474976710656 * b6 + 72057594037927936 * b7, r)
  | _ => .error .truncatedInput

/-- Modelled from the spec: read a signed 32-bit value. -/
def decodeI32 (l : List Nat) : Except DecodeError (Int × List Nat) :=
  match decodeU32 l with
  | .ok (n, r) =>
      .ok (if n < 2147483648 then (n : Int) else (n : Int) - 4294967296, r)
  | .error e => .error e

/-- Modelled from the spec: read a signed 64-bit value. -/
def decodeI64 (l : List Nat) : Except DecodeError (Int × List Nat) :=
  match decodeU64 l with
  | .ok (n, r) =>
      .ok (if n < 9223372036854775808 then (n : Int)
           else (n : Int) - 18446744073709551616, r)
  | .error e => .error e

/-- Modelled from the spec: read a length-value byte string. -/
def decodeBytesLV (l : List Nat) : Except DecodeError (List Nat × List Nat) :=
  match decodeU32 l with
  | .ok (n, r) =>
      if r.length < n then .error .truncatedInput
      else .ok (r.take n, r.drop n)
  | .error e => .error e

/-- Modelled from the spec, section 4.1: the byte image produced by
`ENCODE_START(v, compat, bl)` ... `ENCODE_FINISH(bl)` around a payload:
struct version byte, min-compatible version byte, payload byte count as
u32, then the payload. -/
def encodeEnvelope (v compat : Nat) (payload : List Nat) : List Nat :=
  [v % 256, compat % 256] ++ encodeU32 payload.length ++ payload

/- ------------------------------------------------------------------ -/
/- Event variant catalog, from `Types.cc` with the field lists of the
   missing header modelled from spec section 3.                        -/
/- ------------------------------------------------------------------ -/

structure AioDiscardEvent where
  offset : Nat
  length : Nat
deriving DecidableEq, Repr

structure AioWriteEvent where
  offset : Nat
  length : Nat
  data : List Nat
deriving DecidableEq, Repr

structure OpEventBase where
  op_tid : Nat
deriving DecidableEq, Repr

structure OpFinishEvent where
  op_tid : Nat
  r : Int
deriving DecidableEq, Repr

structure SnapEventBase where
  op_tid : Nat
  snap_name : List Nat
deriving DecidableEq, Repr

structure SnapRenameEvent where
  op_tid : Nat
  snap_id : Nat
  snap_name : List Nat
deriving DecidableEq, Repr

structure RenameEvent where
  op_tid : Nat
  image_name : List Nat
deriving DecidableEq, Repr

structure ResizeEvent where
  op_tid : Nat
  size : Nat
deriving DecidableEq, Repr

/-- The Event sum type held by an `EventEntry` (boost variant in the
source).  `SnapCreate`/`SnapRemove`/`SnapProtect`/`SnapUnprotect`/
`SnapRollback` share the `SnapEventBase` shape and `Flatten` the
`OpEventBase` shape, by composition as the spec directs. -/
inductive Event where
  | aioDiscard (e : AioDiscardEvent)
  | aioWrite (e : AioWriteEvent)
  | aioFlush
  | opFinish (e : OpFinishEvent)
  | snapCreate (e : SnapEventBase)
  | snapRemove (e : SnapEventBase)
  | snapRename (e : SnapRenameEvent)
  | snapProtect (e : SnapEventBase)
  | snapUnprotect (e : SnapEventBase)
  | snapRollback (e : SnapEventBase)
  | rename (e : RenameEvent)
  | resize (e : ResizeEvent)
  | flatten (e : OpEventBase)
  | unknown
deriving DecidableEq, Repr

/-- The envelope that owns exactly one event variant. -/
structure EventEntry where
  event : Event
deriving DecidableEq, Repr

/-- Modelled from the spec: the closed event discriminator catalog of the
missing header, in the order the dispatch switch and the stringifier
enumerate it. -/
def EVENT_TYPE_AIO_DISCARD : Nat := 0
def EVENT_TYPE_AIO_WRITE : Nat := 1
def EVENT_TYPE_AIO_FLUSH : Nat := 2
def EVENT_TYPE_OP_FINISH : Nat := 3
def EVENT_TYPE_SNAP_CREATE : Nat := 4
def EVENT_TYPE_SNAP_REMOVE : Nat := 5
def EVENT_TYPE_SNAP_RENAME : Nat := 6
def EVENT_TYPE_SNAP_PROTECT : Nat := 7
def EVENT_TYPE_SNAP_UNPROTECT : Nat := 8
def EVENT_TYPE_SNAP_ROLLBACK : Nat := 9
def EVENT_TYPE_RENAME : Nat := 10
def EVENT_TYPE_RESIZE : Nat := 11
def EVENT_TYPE_FLATTEN : Nat := 12

/-- Modelled from the spec: the placeholder type constant of the missing
header, the out-of-band value `static_cast<EventType>(-1)` seen as u32. -/
def UNKNOWN_EVENT_TYPE : Nat := 4294967295

/-- The known event discriminators, for stating the unknown-tag claims. -/
def knownEventTags : List Nat :=
  [EVENT_TYPE_AIO_DISCARD, EVENT_TYPE_AIO_WRITE, EVENT_TYPE_AIO_FLUSH,
   EVENT_TYPE_OP_FINISH, EVENT_TYPE_SNAP_CREATE, EVENT_TYPE_SNAP_REMOVE,
   EVENT_TYPE_SNAP_RENAME, EVENT_TYPE_SNAP_PROTECT,
   EVENT_TYPE_SNAP_UNPROTECT, EVENT_TYPE_SNAP_ROLLBACK,
   EVENT_TYPE_RENAME, EVENT_TYPE_RESIZE, EVENT_TYPE_FLATTEN]

/-- `GetTypeVisitor` applied to the event variant: each alternative
reports its compile-time type constant. -/
def Event.eventType : Event → Nat
  | .aioDiscard _ => EVENT_TYPE_AIO_DISCARD
  | .aioWrite _ => EVENT_TYPE_AIO_WRITE
  | .aioFlush => EVENT_TYPE_AIO_FLUSH
  | .opFinish _ => EVENT_TYPE_OP_FINISH
  | .snapCreate _ => EVENT_TYPE_SNAP_CREATE
  | .snapRemove _ => EVENT_TYPE_SNAP_REMOVE
  | .snapRename _ => EVENT_TYPE_SNAP_RENAME
  | .snapProtect _ => EVENT_TYPE_SNAP_PROTECT
  | .snapUnprotect _ => EVENT_TYPE_SNAP_UNPROTECT
  | .snapRollback _ => EVENT_TYPE_SNAP_ROLLBACK
  | .rename _ => EVENT_TYPE_RENAME
  | .resize _ => EVENT_TYPE_RESIZE
  | .flatten _ => EVENT_TYPE_FLATTEN
  | .unknown => UNKNOWN_EVENT_TYPE

/-- `EventEntry::get_event_type`. -/
def EventEntry.get_event_type (e : EventEntry) : Nat :=
  Event.eventType e.event

/- Per-variant codecs, translated from `Types.cc`.  Every decode keeps the
   unused `version` argument the source signatures carry. -/

def AioDiscardEvent.encode (e : AioDiscardEvent) : List Nat :=
  encodeU64 e.offset ++ encodeU64 e.length

def AioDiscardEvent.decode (version : Nat) (l : List Nat) :
    Except DecodeError (AioDiscardEvent × List Nat) := do
  let (offset, l) ← decodeU64 l
  let (len, l) ← decodeU64 l
  pure (⟨offset, len⟩, l)

def AioWriteEvent.encode (e : AioWriteEvent) : List Nat :=
  encodeU64 e.offset ++ encodeU64 e.length ++ encodeBytesLV e.data

def AioWriteEvent.decode (version : Nat) (l : List Nat) :
    Except DecodeError (AioWriteEvent × List Nat) := do
  let (offset, l) ← decodeU64 l
  let (len, l) ← decodeU64 l
  let (data, l) ← decodeBytesLV l
  pure (⟨offset, len, data⟩, l)

/-- `AioFlushEvent::encode` writes nothing. -/
def AioFlushEvent.encode : List Nat := []

/-- `AioFlushEvent::decode` reads nothing. -/
def AioFlushEvent.decode (version : Nat) (l : List Nat) :
    Except DecodeError (Unit × List Nat) :=
  pure ((), l)

def OpEventBase.encode (e : OpEventBase) : List Nat :=
  encodeU64 e.op_tid

def OpEventBase.decode (version : Nat) (l : List Nat) :
    Except DecodeError (OpEventBase × List Nat) := do
  let (op_tid, l) ← decodeU64 l
  pure (⟨op_tid⟩, l)

/-- `OpFinishEvent::encode`: the inherited `OpEventBase` group writes
`op_tid`, then the body writes the same member again, then the result. -/
def OpFinishEvent.encode (e : OpFinishEvent) : List Nat :=
  OpEventBase.encode ⟨e.op_tid⟩ ++ encodeU64 e.op_tid ++ encodeI32 e.r

/-- `OpFinishEvent::decode`: the base group reads `op_tid`, then the body
reads the same member again (the second read is the one that sticks), then
the result. -/
def OpFinishEvent.decode (version : Nat) (l : List Nat) :
    Except DecodeError (OpFinishEvent × List Nat) := do
  let (base, l) ← OpEventBase.decode version l
  let (op_tid, l) ← decodeU64 l
  let (r, l) ← decodeI32 l
  pure (⟨op_tid, r⟩, l)

def SnapEventBase.encode (e : SnapEventBase) : List Nat :=
  OpEventBase.encode ⟨e.op_tid⟩ ++ encodeBytesLV e.snap_name

def SnapEventBase.decode (version : Nat) (l : List Nat) :
    Except DecodeError (SnapEventBase × List Nat) := do
  let (base, l) ← OpEventBase.decode version l
  let (snap_name, l) ← decodeBytesLV l
  pure (⟨base.op_tid, snap_name⟩, l)

def SnapRenameEvent.encode (e : SnapRenameEvent) : List Nat :=
  SnapEventBase.encode ⟨e.op_tid, e.snap_name⟩ ++ encodeU64 e.snap_id

def SnapRenameEvent.decode (version : Nat) (l : List Nat) :
    Except DecodeError (SnapRenameEvent × List Nat) := do
  let (base, l) ← SnapEventBase.decode version l
  let (snap_id, l) ← decodeU64 l
  pure (⟨base.op_tid, snap_id, base.snap_name⟩, l)

def RenameEvent.encode (e : RenameEvent) : List Nat :=
  OpEventBase.encode ⟨e.op_tid⟩ ++ encodeBytesLV e.image_name

def RenameEvent.decode (version : Nat) (l : List Nat) :
    Except DecodeError (RenameEvent × List Nat) := do
  let (base, l) ← OpEventBase.decode version l
  let (image_name, l) ← decodeBytesLV l
  pure (⟨base.op_tid, image_name⟩, l)

def ResizeEvent.encode (e : ResizeEvent) : List Nat :=
  OpEventBase.encode ⟨e.op_tid⟩ ++ encodeU64 e.size

def ResizeEvent.decode (version : Nat) (l : List Nat) :
    Except DecodeError (ResizeEvent × List Nat) := do
  let (base, l) ← OpEventBase.decode version l
  let (size, l) ← decodeU64 l
  pure (⟨base.op_tid, size⟩, l)

/-- `UnknownEvent::encode` is `assert(false)`: an unconditional fatal
assertion, modelled as the absence of a result; no byte is produced. -/
def UnknownEvent.encode : Option (List Nat) := none

/-- `UnknownEvent::decode` is a no-op consuming zero bytes. -/
def UnknownEvent.decode (version : Nat) (l : List Nat) :
    Except DecodeError (Unit × List Nat) :=
  pure ((), l)

/-- `EncodeVisitor` restricted to the payload: the per-variant encode
bodies; the placeholder aborts, which surfaces as `none`. -/
def Event.encodePayload : Event → Option (List Nat)
  | .aioDiscard e => some e.encode
  | .aioWrite e => some e.encode
  | .aioFlush => some AioFlushEvent.encode
  | .opFinish e => some e.encode
  | .snapCreate e => some e.encode
  | .snapRemove e => some e.encode
  | .snapRename e => some e.encode
  | .snapProtect e => some e.encode
  | .snapUnprotect e => some e.encode
  | .snapRollback e => some e.encode
  | .rename e => some e.encode
  | .resize e => some e.encode
  | .flatten e => some e.encode
  | .unknown => UnknownEvent.encode

/-- The dispatch switch of `EventEntry::decode` followed by the
`DecodeVisitor` call: select the variant named by the discriminator,
default-construct it and let it consume its bytes; any other value yields
the inert placeholder. -/
def decodeEventPayload (event_type : Nat) (struct_v : Nat) (l : List Nat) :
    Except DecodeError (Event × List Nat) :=
  if event_type = EVENT_TYPE_AIO_DISCARD then do
    let (e, r) ← AioDiscardEvent.decode struct_v l
    pure (.aioDiscard e, r)
  else if event_type = EVENT_TYPE_AIO_WRITE then do
    let (e, r) ← AioWriteEvent.decode struct_v l
    pure (.aioWrite e, r)
  else if event_type = EVENT_TYPE_AIO_FLUSH then do
    let (_u, r) ← AioFlushEvent.decode struct_v l
    pure (.aioFlush, r)
  else if event_type = EVENT_TYPE_OP_FINISH then do
    let (e, r) ← OpFinishEvent.decode struct_v l
    pure (.opFinish e, r)
  else if event_type = EVENT_TYPE_SNAP_CREATE then do
    let (e, r) ← SnapEventBase.decode struct_v l
    pure (.snapCreate e, r)
  else if event_type = EVENT_TYPE_SNAP_REMOVE then do
    let (e, r) ← SnapEventBase.decode struct_v l
    pure (.snapRemove e, r)
  else if event_type = EVENT_TYPE_SNAP_RENAME then do
    let (e, r) ← SnapRenameEvent.decode struct_v l
    pure (.snapRename e, r)
  else if event_type = EVENT_TYPE_SNAP_PROTECT then do
    let (e, r) ← SnapEventBase.decode struct_v l
    pure (.snapProtect e, r)
  else if event_type = EVENT_TYPE_SNAP_UNPROTECT then do
    let (e, r) ← SnapEventBase.decode struct_v l
    pure (.snapUnprotect e, r)
  else if event_type = EVENT_TYPE_SNAP_ROLLBACK then do
    let (e, r) ← SnapEventBase.decode struct_v l
    pure (.snapRollback e, r)
  else if event_type = EVENT_TYPE_RENAME then do
    let (e, r) ← RenameEvent.decode struct_v l
    pure (.rename e, r)
  else if event_type = EVENT_TYPE_RESIZE then do
    let (e, r) ← ResizeEvent.decode struct_v l
    pure (.resize e, r)
  else if event_type = EVENT_TYPE_FLATTEN then do
    let (e, r) ← OpEventBase.decode struct_v l
    pure (.flatten e, r)
  else do
    let (_u, r) ← UnknownEvent.decode struct_v l
    pure (.unknown, r)

/-- `EventEntry::encode`: `ENCODE_START(1, 1, bl)`, the `EncodeVisitor`
(discriminator as u32, then the payload), `ENCODE_FINISH(bl)`.  Encoding a
placeholder hits the fatal assertion, hence no result. -/
def EventEntry.encode (e : EventEntry) : Option (List Nat) :=
  (Event.encodePayload e.event).map fun p =>
    encodeEnvelope 1 1 (encodeU32 (Event.eventType e.event) ++ p)

/-- `EventEntry::decode`: `DECODE_START(1, it)` reads the version pair,
refuses a min-compatible version above 1, reads the declared payload
length and bounds it by the remaining bytes; then the discriminator is
read, the dispatch runs, and `DECODE_FINISH` refuses payload over-reads
and skips to the end of the declared length. -/
def EventEntry.decode (l : List Nat) :
    Except DecodeError (EventEntry × List Nat) := do
  let (struct_v, l) ← decodeU8 l
  let (struct_compat, l) ← decodeU8 l
  if 1 < struct_compat then throw .incompatibleVersion
  else do
    let (struct_len, l) ← decodeU32 l
    if l.length < struct_len then throw .truncatedInput
    else do
      let (event_type, l1) ← decodeU32 l
      let (event, l2) ← decodeEventPayload event_type struct_v l1
      if struct_len < l.length - l2.length then throw .malformedPayload
      else pure (⟨event⟩, l.drop struct_len)

/- ------------------------------------------------------------------ -/
/- Client metadata catalog.                                            -/
/- ------------------------------------------------------------------ -/

structure ImageClientMeta where
  tag_class : Nat
deriving DecidableEq, Repr

structure MirrorPeerClientMeta where
  cluster_id : List Nat
  pool_id : Int
  image_id : List Nat
deriving DecidableEq, Repr

/-- The client metadata sum type held by a `ClientData`.  `CliClientMeta`
has no fields. -/
inductive ClientMeta where
  | imageClientMeta (m : ImageClientMeta)
  | mirrorPeerClientMeta (m : MirrorPeerClientMeta)
  | cliClientMeta
  | unknownClientMeta
deriving DecidableEq, Repr

/-- The envelope that owns exactly one client metadata variant. -/
structure ClientData where
  client_meta : ClientMeta
deriving DecidableEq, Repr

/-- Modelled from the spec: the closed client metadata discriminator
catalog of the missing header, in the order the dispatch switch and the
stringifier enumerate it. -/
def IMAGE_CLIENT_META_TYPE : Nat := 0
def MIRROR_PEER_CLIENT_META_TYPE : Nat := 1
def CLI_CLIENT_META_TYPE : Nat := 2

/-- Modelled from the spec: the placeholder type constant of the missing
header, the out-of-band value `static_cast<ClientMetaType>(-1)` as u32. -/
def UNKNOWN_CLIENT_META_TYPE : Nat := 4294967295

/-- The known client metadata discriminators. -/
def knownClientMetaTags : List Nat :=
  [IMAGE_CLIENT_META_TYPE, MIRROR_PEER_CLIENT_META_TYPE,
   CLI_CLIENT_META_TYPE]

/-- `GetTypeVisitor` applied to the client metadata variant. -/
def ClientMeta.clientMetaType : ClientMeta → Nat
  | .imageClientMeta _ => IMAGE_CLIENT_META_TYPE
  | .mirrorPeerClientMeta _ => MIRROR_PEER_CLIENT_META_TYPE
  | .cliClientMeta => CLI_CLIENT_META_TYPE
  | .unknownClientMeta => UNKNOWN_CLIENT_META_TYPE

/-- `ClientData::get_client_meta_type`. -/
def ClientData.get_client_meta_type (c : ClientData) : Nat :=
  ClientMeta.clientMetaType c.client_meta

def ImageClientMeta.encode (m : ImageClientMeta) : List Nat :=
  encodeU64 m.tag_class

def ImageClientMeta.decode (version : Nat) (l : List Nat) :
    Except DecodeError (ImageClientMeta × List Nat) := do
  let (tag_class, l) ← decodeU64 l
  pure (⟨tag_class⟩, l)

def MirrorPeerClientMeta.encode (m : MirrorPeerClientMeta) : List Nat :=
  encodeBytesLV m.cluster_id ++ encodeI64 m.pool_id ++
    encodeBytesLV m.image_id

def MirrorPeerClientMeta.decode (version : Nat) (l : List Nat) :
    Except DecodeError (MirrorPeerClientMeta × List Nat) := do
  let (cluster_id, l) ← decodeBytesLV l
  let (pool_id, l) ← decodeI64 l
  let (image_id, l) ← decodeBytesLV l
  pure (⟨cluster_id, pool_id, image_id⟩, l)

/-- `CliClientMeta::encode` writes nothing. -/
def CliClientMeta.encode : List Nat := []

/-- `CliClientMeta::decode` reads nothing. -/
def CliClientMeta.decode (version : Nat) (l : List Nat) :
    Except DecodeError (Unit × List Nat) :=
  pure ((), l)

/-- `UnknownClientMeta::encode` is `assert(false)`: an unconditional fatal
assertion, modelled as the absence of a result; no byte is produced. -/
def UnknownClientMeta.encode : Option (List Nat) := none

/-- `UnknownClientMeta::decode` is a no-op consuming zero bytes. -/
def UnknownClientMeta.decode (version : Nat) (l : List Nat) :
    Except DecodeError (Unit × List Nat) :=
  pure ((), l)

/-- `EncodeVisitor` restricted to the client metadata payload. -/
def ClientMeta.encodePayload : ClientMeta → Option (List Nat)
  | .imageClientMeta m => some m.encode
  | .mirrorPeerClientMeta m => some m.encode
  | .cliClientMeta => some CliClientMeta.encode
  | .unknownClientMeta => UnknownClientMeta.encode

/-- The dispatch switch of `ClientData::decode` followed by the
`DecodeVisitor` call. -/
def decodeClientPayload (client_meta_type : Nat) (struct_v : Nat)
    (l : List Nat) : Except DecodeError (ClientMeta × List Nat) :=
  if client_meta_type = IMAGE_CLIENT_META_TYPE then do
    let (m, r) ← ImageClientMeta.decode struct_v l
    pure (.imageClientMeta m, r)
  else if client_meta_type = MIRROR_PEER_CLIENT_META_TYPE then do
    let (m, r) ← MirrorPeerClientMeta.decode struct_v l
    pure (.mirrorPeerClientMeta m, r)
  else if client_meta_type = CLI_CLIENT_META_TYPE then do
    let (_u, r) ← CliClientMeta.decode struct_v l
    pure (.cliClientMeta, r)
  else do
    let (_u, r) ← UnknownClientMeta.decode struct_v l
    pure (.unknownClientMeta, r)

/-- `ClientData::encode`, same envelope as `EventEntry::encode`. -/
def ClientData.encode (c : ClientData) : Option (List Nat) :=
  (ClientMeta.encodePayload c.client_meta).map fun p =>
    encodeEnvelope 1 1 (encodeU32 (ClientMeta.clientMetaType c.client_meta) ++ p)

/-- `ClientData::decode`, same envelope handling as
`EventEntry::decode`. -/
def ClientData.decode (l : List Nat) :
    Except DecodeError (ClientData × List Nat) := do
  let (struct_v, l) ← decodeU8 l
  let (struct_compat, l) ← decodeU8 l
  if 1 < struct_compat then throw .incompatibleVersion
  else do
    let (struct_len, l) ← decodeU32 l
    if l.length < struct_len then throw .truncatedInput
    else do
      let (client_meta_type, l1) ← decodeU32 l
      let (client_meta, l2) ← decodeClientPayload client_meta_type struct_v l1
      if struct_len < l.length - l2.length then throw .malformedPayload
      else pure (⟨client_meta⟩, l.drop struct_len)

/- ------------------------------------------------------------------ -/
/- Tag lineage record: a flat record, no envelope, no discriminator.   -/
/- ------------------------------------------------------------------ -/

structure TagData where
  cluster_id : List Nat
  pool_id : Int
  image_id : List Nat
  predecessor_tag_tid : Nat
  predecessor_entry_tid : Nat
deriving DecidableEq, Repr

/-- `TagData::encode`: the five fields in order, with no version header
and no discriminator. -/
def TagData.encode (t : TagData) : List Nat :=
  encodeBytesLV t.cluster_id ++ encodeI64 t.pool_id ++
    encodeBytesLV t.image_id ++ encodeU64 t.predecessor_tag_tid ++
    encodeU64 t.predecessor_entry_tid

/-- `TagData::decode`: the five fields in order; the source signature has
no version argument. -/
def TagData.decode (l : List Nat) :
    Except DecodeError (TagData × List Nat) := do
  let (cluster_id, l) ← decodeBytesLV l
  let (pool_id, l) ← decodeI64 l
  let (image_id, l) ← decodeBytesLV l
  let (predecessor_tag_tid, l) ← decodeU64 l
  let (predecessor_entry_tid, l) ← decodeU64 l
  pure (⟨cluster_id, pool_id, image_id, predecessor_tag_tid,
         predecessor_entry_tid⟩, l)

/- ------------------------------------------------------------------ -/
/- Diagnostic stringification and the dump contract.                   -/
/- ------------------------------------------------------------------ -/

/-- `operator<<(std::ostream, EventType)`: mnemonic names for the known
discriminators, `Unknown (<value>)` for everything else. -/
def eventTypeToString (t : Nat) : String :=
  if t = EVENT_TYPE_AIO_DISCARD then "AioDiscard"
  else if t = EVENT_TYPE_AIO_WRITE then "AioWrite"
  else if t = EVENT_TYPE_AIO_FLUSH then "AioFlush"
  else if t = EVENT_TYPE_OP_FINISH then "OpFinish"
  else if t = EVENT_TYPE_SNAP_CREATE then "SnapCreate"
  else if t = EVENT_TYPE_SNAP_REMOVE then "SnapRemove"
  else if t = EVENT_TYPE_SNAP_RENAME then "SnapRename"
  else if t = EVENT_TYPE_SNAP_PROTECT then "SnapProtect"
  else if t = EVENT_TYPE_SNAP_UNPROTECT then "SnapUnprotect"
  else if t = EVENT_TYPE_SNAP_ROLLBACK then "SnapRollback"
  else if t = EVENT_TYPE_RENAME then "Rename"
  else if t = EVENT_TYPE_RESIZE then "Resize"
  else if t = EVENT_TYPE_FLATTEN then "Flatten"
  else "Unknown (" ++ toString t ++ ")"

/-- `operator<<(std::ostream, ClientMetaType)`. -/
def clientMetaTypeToString (t : Nat) : String :=
  if t = IMAGE_CLIENT_META_TYPE then "Master Image"
  else if t = MIRROR_PEER_CLIENT_META_TYPE then "Mirror Peer"
  else if t = CLI_CLIENT_META_TYPE then "CLI Tool"
  else "Unknown (" ++ toString t ++ ")"

/-- One record emitted to the `Formatter` by a dump call:
`dump_unsigned`, `dump_int` or `dump_string`. -/
inductive DumpEntry where
  | unsigned (key : String) (value : Nat)
  | int (key : String) (value : Int)
  | str (key : String) (value : List Nat)
deriving DecidableEq, Repr

/-- The key under which a dump record was emitted. -/
def dumpKey : DumpEntry → String
  | .unsigned k _ => k
  | .int k _ => k
  | .str k _ => k

def AioDiscardEvent.dump (e : AioDiscardEvent) : List DumpEntry :=
  [.unsigned "offset" e.offset, .unsigned "length" e.length]

/-- `AioWriteEvent::dump` emits only `offset` and `length`; the `data`
blob is not dumped. -/
def AioWriteEvent.dump (e : AioWriteEvent) : List DumpEntry :=
  [.unsigned "offset" e.offset, .unsigned "length" e.length]

def AioFlushEvent.dump : List DumpEntry := []

def OpEventBase.dump (e : OpEventBase) : List DumpEntry :=
  [.unsigned "op_tid" e.op_tid]

def OpFinishEvent.dump (e : OpFinishEvent) : List DumpEntry :=
  OpEventBase.dump ⟨e.op_tid⟩ ++
    [.unsigned "op_tid" e.op_tid, .int "result" e.r]

def SnapEventBase.dump (e : SnapEventBase) : List DumpEntry :=
  OpEventBase.dump ⟨e.op_tid⟩ ++ [.str "snap_name" e.snap_name]

def SnapRenameEvent.dump (e : SnapRenameEvent) : List DumpEntry :=
  SnapEventBase.dump ⟨e.op_tid, e.snap_name⟩ ++
    [.unsigned "src_snap_id" e.snap_id, .str "dest_snap_name" e.snap_name]

def RenameEvent.dump (e : RenameEvent) : List DumpEntry :=
  OpEventBase.dump ⟨e.op_tid⟩ ++ [.str "image_name" e.image_name]

def ResizeEvent.dump (e : ResizeEvent) : List DumpEntry :=
  OpEventBase.dump ⟨e.op_tid⟩ ++ [.unsigned "size" e.size]

def UnknownEvent.dump : List DumpEntry := []

def ImageClientMeta.dump (m : ImageClientMeta) : List DumpEntry :=
  [.unsigned "tag_class" m.tag_class]

def MirrorPeerClientMeta.dump (m : MirrorPeerClientMeta) : List DumpEntry :=
  [.str "cluster_id" m.cluster_id, .int "pool_id" m.pool_id,
   .str "image_id" m.image_id]

def CliClientMeta.dump : List DumpEntry := []

def UnknownClientMeta.dump : List DumpEntry := []

def TagData.dump (t : TagData) : List DumpEntry :=
  [.str "cluster_id" t.cluster_id, .int "pool_id" t.pool_id,
   .str "image_id" t.image_id,
   .unsigned "predecessor_tag_tid" t.predecessor_tag_tid,
   .unsigned "predecessor_entry_tid" t.predecessor_entry_tid]

/-- `DumpVisitor` over the event variant: the stringified type under the
`event_type` key, then the per-variant dump records. -/
def EventEntry.dump (e : EventEntry) : List DumpEntry :=
  .str "event_type"
      ((eventTypeToString (Event.eventType e.event)).data.map Char.toNat) ::
    match e.event with
    | .aioDiscard v => v.dump
    | .aioWrite v => v.dump
    | .aioFlush => AioFlushEvent.dump
    | .opFinish v => v.dump
    | .snapCreate v => v.dump
    | .snapRemove v => v.dump
    | .snapRename v => v.dump
    | .snapProtect v => v.dump
    | .snapUnprotect v => v.dump
    | .snapRollback v => v.dump
    | .rename v => v.dump
    | .resize v => v.dump
    | .flatten v => v.dump
    | .unknown => UnknownEvent.dump

/- ------------------------------------------------------------------ -/
/- Fixture catalog (`generate_test_instances`).  Default-constructed
   field values come from the missing header and are modelled from the
   spec: zero integers, empty strings, with the conventional -1 default
   for pool identifiers.                                               -/
/- ------------------------------------------------------------------ -/

/-- Byte image of the sample strings, given here as their ASCII codes. -/
def snapStr : List Nat := [115, 110, 97, 112]

/-- The sample string `image name`. -/
def imageNameStr : List Nat := [105, 109, 97, 103, 101, 32, 110, 97, 109, 101]

/-- The sample string `cluster_id`. -/
def clusterIdStr : List Nat := [99, 108, 117, 115, 116, 101, 114, 95, 105, 100]

/-- The sample string `image_id`. -/
def imageIdStr : List Nat := [105, 109, 97, 103, 101, 95, 105, 100]

/-- `EventEntry::generate_test_instances`: one default and one populated
instance per variant (the write data is 32 bytes of the digit one, code
49). -/
def EventEntry.generate_test_instances : List EventEntry :=
  [⟨.aioDiscard ⟨0, 0⟩⟩, ⟨.aioDiscard ⟨123, 345⟩⟩,
   ⟨.aioWrite ⟨0, 0, []⟩⟩, ⟨.aioWrite ⟨123, 456, List.replicate 32 49⟩⟩,
   ⟨.aioFlush⟩,
   ⟨.opFinish ⟨123, -1⟩⟩,
   ⟨.snapCreate ⟨0, []⟩⟩, ⟨.snapCreate ⟨234, snapStr⟩⟩,
   ⟨.snapRemove ⟨0, []⟩⟩, ⟨.snapRemove ⟨345, snapStr⟩⟩,
   ⟨.snapRename ⟨0, 0, []⟩⟩, ⟨.snapRename ⟨456, 1, snapStr⟩⟩,
   ⟨.snapProtect ⟨0, []⟩⟩, ⟨.snapProtect ⟨567, snapStr⟩⟩,
   ⟨.snapUnprotect ⟨0, []⟩⟩, ⟨.snapUnprotect ⟨678, snapStr⟩⟩,
   ⟨.snapRollback ⟨0, []⟩⟩, ⟨.snapRollback ⟨789, snapStr⟩⟩,
   ⟨.rename ⟨0, []⟩⟩, ⟨.rename ⟨890, imageNameStr⟩⟩,
   ⟨.resize ⟨0, 0⟩⟩, ⟨.resize ⟨901, 1234⟩⟩,
   ⟨.flatten ⟨123⟩⟩]

/-- `ClientData::generate_test_instances`. -/
def ClientData.generate_test_instances : List ClientData :=
  [⟨.imageClientMeta ⟨0⟩⟩, ⟨.imageClientMeta ⟨123⟩⟩,
   ⟨.mirrorPeerClientMeta ⟨[], -1, []⟩⟩,
   ⟨.mirrorPeerClientMeta ⟨clusterIdStr, 123, imageIdStr⟩⟩,
   ⟨.cliClientMeta⟩]

/-- `TagData::generate_test_instances`. -/
def TagData.generate_test_instances : List TagData :=
  [⟨[], -1, [], 0, 0⟩, ⟨clusterIdStr, 123, imageIdStr, 0, 0⟩]

/- ------------------------------------------------------------------ -/
/- Claim-support definitions.                                          -/
/- ------------------------------------------------------------------ -/

/-- A round trip through the `EventEntry` envelope reproduces the value
and consumes the whole encoding. -/
def eventEntryRoundTrip (v : EventEntry) : Bool :=
  match EventEntry.encode v with
  | some bs =>
      match EventEntry.decode bs with
      | .ok (v2, rest) => decide (v2 = v) && rest.isEmpty
      | .error _ => false
  | none => false

/-- A round trip through the `ClientData` envelope. -/
def clientDataRoundTrip (v : ClientData) : Bool :=
  match ClientData.encode v with
  | some bs =>
      match ClientData.decode bs with
      | .ok (v2, rest) => decide (v2 = v) && rest.isEmpty
      | .error _ => false
  | none => false

/-- A round trip through the flat `TagData` codec. -/
def tagDataRoundTrip (v : TagData) : Bool :=
  match TagData.decode (TagData.encode v) with
  | .ok (v2, rest) => decide (v2 = v) && rest.isEmpty
  | .error _ => false

/-- The envelope header shape of the claim on the wire format: at least
the six header bytes plus a u32 discriminator, with the u32 length field
at offset 2 counting exactly the bytes that follow the header. -/
def hasEnvelopeHeader (bytes : List Nat) : Prop :=
  10 ≤ bytes.length ∧ (bytes.drop 2).take 4 = encodeU32 (bytes.length - 6)

instance (bytes : List Nat) : Decidable (hasEnvelopeHeader bytes) := by
  unfold hasEnvelopeHeader; infer_instance

/- ------------------------------------------------------------------ -/
/- Helper lemmas about the primitive codecs.                           -/
/- ------------------------------------------------------------------ -/

theorem length_encodeU32 (n : Nat) : (encodeU32 n).length = 4 := rfl

theorem length_encodeU64 (n : Nat) : (encodeU64 n).length = 8 := rfl

theorem decodeU8_cons (b : Nat) (r : List Nat) :
    decodeU8 (b :: r) = .ok (b, r) := rfl

theorem decodeU32_encodeU32 (n : Nat) (r : List Nat)
    (h : n < 4294967296) : decodeU32 (encodeU32 n ++ r) = .ok (n, r) := by
  simp only [encodeU32, List.cons_append, List.nil_append, decodeU32,
    Except.ok.injEq, Prod.mk.injEq, and_true]
  omega

theorem decodeU64_encodeU64 (n : Nat) (r : List Nat)
    (h : n < 18446744073709551616) :
    decodeU64 (encodeU64 n ++ r) = .ok (n, r) := by
  simp only [encodeU64, List.cons_append, List.nil_append, decodeU64,
    Except.ok.injEq, Prod.mk.injEq, and_true]
  omega

theorem decodeI32_encodeI32 (i : Int) (r : List Nat)
    (h1 : -2147483648 ≤ i) (h2 : i < 2147483648) :
    decodeI32 (encodeI32 i ++ r) = .ok (i, r) := by
  have hn : (i % 4294967296).toNat < 4294967296 := by omega
  simp only [encodeI32, decodeI32, decodeU32_encodeU32 _ _ hn,
    Except.ok.injEq, Prod.mk.injEq, and_true]
  split <;> omega

theorem decodeI64_encodeI64 (i : Int) (r : List Nat)
    (h1 : -9223372036854775808 ≤ i) (h2 : i < 9223372036854775808) :
    decodeI64 (encodeI64 i ++ r) = .ok (i, r) := by
  have hn : (i % 18446744073709551616).toNat < 18446744073709551616 := by
    omega
  simp only [encodeI64, decodeI64, decodeU64_encodeU64 _ _ hn,
    Except.ok.injEq, Prod.mk.injEq, and_true]
  split <;> omega

theorem decodeBytesLV_encodeBytesLV (s r : List Nat)
    (h : s.length < 4294967296) :
    decodeBytesLV (encodeBytesLV s ++ r) = .ok (s, r) := by
  simp only [encodeBytesLV, List.append_assoc, decodeBytesLV,
    decodeU32_encodeU32 _ _ h]
  simp

theorem drop_append_len (a b : List Nat) : (a ++ b).drop a.length = b := by
  simp

theorem drop_append_add (a b : List Nat) (n : Nat) :
    (a ++ b).drop (a.length + n) = b.drop n := by
  induction a with
  | nil => simp
  | cons x xs ih => simp [Nat.succ_add, ih]

/-- An unrecognized event discriminator selects the placeholder and
consumes nothing. -/
theorem decodeEventPayload_unknown (t v : Nat) (l : List Nat)
    (h : t ∉ knownEventTags) :
    decodeEventPayload t v l = .ok (.unknown, l) := by
  simp only [knownEventTags, EVENT_TYPE_AIO_DISCARD, EVENT_TYPE_AIO_WRITE,
    EVENT_TYPE_AIO_FLUSH, EVENT_TYPE_OP_FINISH, EVENT_TYPE_SNAP_CREATE,
    EVENT_TYPE_SNAP_REMOVE, EVENT_TYPE_SNAP_RENAME, EVENT_TYPE_SNAP_PROTECT,
    EVENT_TYPE_SNAP_UNPROTECT, EVENT_TYPE_SNAP_ROLLBACK, EVENT_TYPE_RENAME,
    EVENT_TYPE_RESIZE, EVENT_TYPE_FLATTEN, List.mem_cons,
    List.not_mem_nil, or_false, not_or] at h
  obtain ⟨h0, h1, h2, h3, h4, h5, h6, h7, h8, h9, h10, h11, h12⟩ := h
  simp [decodeEventPayload, EVENT_TYPE_AIO_DISCARD, EVENT_TYPE_AIO_WRITE,
    EVENT_TYPE_AIO_FLUSH, EVENT_TYPE_OP_FINISH, EVENT_TYPE_SNAP_CREATE,
    EVENT_TYPE_SNAP_REMOVE, EVENT_TYPE_SNAP_RENAME, EVENT_TYPE_SNAP_PROTECT,
    EVENT_TYPE_SNAP_UNPROTECT, EVENT_TYPE_SNAP_ROLLBACK, EVENT_TYPE_RENAME,
    EVENT_TYPE_RESIZE, EVENT_TYPE_FLATTEN, h0, h1, h2, h3, h4, h5, h6, h7,
    h8, h9, h10, h11, h12, UnknownEvent.decode, pure, Except.pure, Bind.bind, Except.bind]

/-- An unrecognized client metadata discriminator selects the placeholder
and consumes nothing. -/
theorem decodeClientPayload_unknown (t v : Nat) (l : List Nat)
    (h : t ∉ knownClientMetaTags) :
    decodeClientPayload t v l = .ok (.unknownClientMeta, l) := by
  simp only [knownClientMetaTags, IMAGE_CLIENT_META_TYPE,
    MIRROR_PEER_CLIENT_META_TYPE, CLI_CLIENT_META_TYPE, List.mem_cons,
    List.not_mem_nil, or_false, not_or] at h
  obtain ⟨h0, h1, h2⟩ := h
  simp [decodeClientPayload, IMAGE_CLIENT_META_TYPE,
    MIRROR_PEER_CLIENT_META_TYPE, CLI_CLIENT_META_TYPE, h0, h1, h2,
    UnknownClientMeta.decode, pure, Except.pure, Bind.bind, Except.bind]

/-- Envelope behaviour of `EventEntry::decode` on a well-formed header: a
payload decode that leaves `ext ++ rest` unread succeeds when the declared
length covers the discriminator, the consumed payload and `ext`, and the
cursor ends just past the declared length, with `ext` skipped. -/
theorem eventEntry_decode_skip (t : Nat) (p ext rest : List Nat) (ev : Event)
    (hp : decodeEventPayload t 1 (p ++ (ext ++ rest)) = .ok (ev, ext ++ rest))
    (ht : t < 4294967296) (hlen : 4 + p.length + ext.length < 4294967296) :
    EventEntry.decode ([1, 1] ++ encodeU32 (4 + p.length + ext.length) ++
      (encodeU32 t ++ (p ++ (ext ++ rest)))) = .ok (⟨ev⟩, rest) := by
  have hl : ((encodeU32 t ++ p) ++ ext).length = 4 + p.length + ext.length := by
    simp [encodeU32]; omega
  have hdrop : (encodeU32 t ++ (p ++ (ext ++ rest))).drop
      (4 + p.length + ext.length) = rest := by
    rw [show encodeU32 t ++ (p ++ (ext ++ rest)) =
      ((encodeU32 t ++ p) ++ ext) ++ rest by simp [List.append_assoc], ← hl,
      drop_append_len]
  simp only [EventEntry.decode, List.cons_append, List.nil_append,
    decodeU8_cons, Bind.bind, Except.bind, decodeU32_encodeU32 _ _ hlen,
    decodeU32_encodeU32 _ _ ht, hp]
  norm_num [hdrop, pure, Except.pure]
  rw [length_encodeU32, if_neg (by omega), if_neg (by omega)]

/-- Envelope behaviour of `ClientData::decode`, as for `EventEntry`. -/
theorem clientData_decode_skip (t : Nat) (p ext rest : List Nat)
    (cm : ClientMeta)
    (hp : decodeClientPayload t 1 (p ++ (ext ++ rest)) = .ok (cm, ext ++ rest))
    (ht : t < 4294967296) (hlen : 4 + p.length + ext.length < 4294967296) :
    ClientData.decode ([1, 1] ++ encodeU32 (4 + p.length + ext.length) ++
      (encodeU32 t ++ (p ++ (ext ++ rest)))) = .ok (⟨cm⟩, rest) := by
  have hl : ((encodeU32 t ++ p) ++ ext).length = 4 + p.length + ext.length := by
    simp [encodeU32]; omega
  have hdrop : (encodeU32 t ++ (p ++ (ext ++ rest))).drop
      (4 + p.length + ext.length) = rest := by
    rw [show encodeU32 t ++ (p ++ (ext ++ rest)) =
      ((encodeU32 t ++ p) ++ ext) ++ rest by simp [List.append_assoc], ← hl,
      drop_append_len]
  simp only [ClientData.decode, List.cons_append, List.nil_append,
    decodeU8_cons, Bind.bind, Except.bind, decodeU32_encodeU32 _ _ hlen,
    decodeU32_encodeU32 _ _ ht, hp]
  norm_num [hdrop, pure, Except.pure]
  rw [length_encodeU32, if_neg (by omega), if_neg (by omega)]

/-- Claim C1: every fixture instance produced by the three
`generate_test_instances` entry points decodes, after encoding, to a value
equal to the original field for field, with the whole encoding
consumed. -/
theorem claim_C1_fixture_round_trip :
    EventEntry.generate_test_instances.all eventEntryRoundTrip = true ∧
    ClientData.generate_test_instances.all clientDataRoundTrip = true ∧
    TagData.generate_test_instances.all tagDataRoundTrip = true :=
  ⟨by decide, by decide, by decide⟩

/-- Claim C2: a 32-bit discriminator outside the known catalog is not an
error: both envelope decoders succeed with the placeholder variant, whose
decode consumes zero payload bytes, and the remaining declared payload
bytes are skipped by the envelope. -/
theorem claim_C2_unknown_discriminator (t : Nat) (extra rest : List Nat)
    (ht32 : t < 4294967296) (hlen : 4 + extra.length < 4294967296) :
    (t ∉ knownEventTags →
      EventEntry.decode ([1, 1] ++ encodeU32 (4 + extra.length) ++
        (encodeU32 t ++ (extra ++ rest))) = .ok (⟨.unknown⟩, rest)) ∧
    (t ∉ knownClientMetaTags →
      ClientData.decode ([1, 1] ++ encodeU32 (4 + extra.length) ++
        (encodeU32 t ++ (extra ++ rest))) = .ok (⟨.unknownClientMeta⟩, rest)) := by
  constructor
  · intro he
    have h := eventEntry_decode_skip t [] extra rest .unknown
      (by simpa using decodeEventPayload_unknown t 1 (extra ++ rest) he)
      ht32 (by simpa using hlen)
    simpa using h
  · intro hc
    have h := clientData_decode_skip t [] extra rest .unknownClientMeta
      (by simpa using decodeClientPayload_unknown t 1 (extra ++ rest) hc)
      ht32 (by simpa using hlen)
    simpa using h

/-- Witness for C2 at discriminator 9999 with one declared payload
byte. -/
theorem claim_C2_unknown_discriminator_witness :
    EventEntry.decode [1, 1, 5, 0, 0, 0, 15, 39, 0, 0, 7] =
      .ok (⟨.unknown⟩, []) ∧
    ClientData.decode [1, 1, 5, 0, 0, 0, 15, 39, 0, 0, 7] =
      .ok (⟨.unknownClientMeta⟩, []) := by
  have h := claim_C2_unknown_discriminator 9999 [7] [] (by decide) (by decide)
  exact ⟨by simpa [encodeU32] using h.1 (by decide),
         by simpa [encodeU32] using h.2 (by decide)⟩

/-- Claim C3: encoding an envelope that holds the placeholder variant hits
the unconditional fatal assertion in the placeholder encode and produces no
payload bytes, for both `EventEntry` and `ClientData`. -/
theorem claim_C3_encode_placeholder_fatal :
    UnknownEvent.encode = none ∧ UnknownClientMeta.encode = none ∧
    EventEntry.encode ⟨.unknown⟩ = none ∧
    ClientData.encode ⟨.unknownClientMeta⟩ = none :=
  ⟨rfl, rfl, rfl, rfl⟩

/-- Claim C4: a min-compatible version byte above the understood maximum 1
makes both envelope decoders fail with the incompatible-version error
before any payload byte is examined, whatever follows. -/
theorem claim_C4_version_floor (v c : Nat) (rest : List Nat)
    (h1 : 1 < c) (h2 : c < 256) :
    EventEntry.decode (v :: c :: rest) = .error .incompatibleVersion ∧
    ClientData.decode (v :: c :: rest) = .error .incompatibleVersion := by
  constructor
  · simp only [EventEntry.decode, decodeU8_cons, Bind.bind, Except.bind]
    rw [if_pos h1]
    rfl
  · simp only [ClientData.decode, decodeU8_cons, Bind.bind, Except.bind]
    rw [if_pos h1]
    rfl

/-- Witness for C4: min-compatible version 2 against understood maximum 1,
with an empty remainder. -/
theorem claim_C4_version_floor_witness :
    EventEntry.decode [1, 2] = .error .incompatibleVersion ∧
    ClientData.decode [1, 2] = .error .incompatibleVersion :=
  claim_C4_version_floor 1 2 [] (by decide) (by decide)

/-- Claim C5: an envelope whose declared payload length strictly exceeds
what the matched variant consumes still decodes successfully and the
cursor ends past the full declared length, the unconsumed trailing bytes
silently discarded, for both `EventEntry` and `ClientData`. -/
theorem claim_C5_trailing_skip
    (tE : Nat) (pE extE restE : List Nat) (ev : Event)
    (tC : Nat) (pC extC restC : List Nat) (cm : ClientMeta)
    (hpE : decodeEventPayload tE 1 (pE ++ (extE ++ restE)) =
      .ok (ev, extE ++ restE))
    (htE : tE < 4294967296) (hlenE : 4 + pE.length + extE.length < 4294967296)
    (hextE : 0 < extE.length)
    (hpC : decodeClientPayload tC 1 (pC ++ (extC ++ restC)) =
      .ok (cm, extC ++ restC))
    (htC : tC < 4294967296) (hlenC : 4 + pC.length + extC.length < 4294967296)
    (hextC : 0 < extC.length) :
    EventEntry.decode ([1, 1] ++ encodeU32 (4 + pE.length + extE.length) ++
      (encodeU32 tE ++ (pE ++ (extE ++ restE)))) = .ok (⟨ev⟩, restE) ∧
    ClientData.decode ([1, 1] ++ encodeU32 (4 + pC.length + extC.length) ++
      (encodeU32 tC ++ (pC ++ (extC ++ restC)))) = .ok (⟨cm⟩, restC) :=
  ⟨eventEntry_decode_skip tE pE extE restE ev hpE htE hlenE,
   clientData_decode_skip tC pC extC restC cm hpC htC hlenC⟩

/-- Witness for C5: a flush event (no payload) and a CLI client record (no
payload) under a declared length of 5, one byte beyond what the variant
consumes. -/
theorem claim_C5_trailing_skip_witness :
    EventEntry.decode [1, 1, 5, 0, 0, 0, 2, 0, 0, 0, 9] =
      .ok (⟨.aioFlush⟩, []) ∧
    ClientData.decode [1, 1, 5, 0, 0, 0, 2, 0, 0, 0, 9] =
      .ok (⟨.cliClientMeta⟩, []) := by
  have h := claim_C5_trailing_skip 2 [] [9] [] .aioFlush 2 [] [9] []
    .cliClientMeta rfl (by decide) (by decide) (by decide) rfl (by decide)
    (by decide) (by decide)
  simpa [encodeU32] using h

theorem take_append_len (a b : List Nat) : (a ++ b).take a.length = a := by
  simp

theorem take_append_of_len (a b : List Nat) (n : Nat) (h : a.length = n) :
    (a ++ b).take n = a := by
  subst h
  simp

/-- Claim C6 counterexample: `TagData::encode` writes no envelope header
and no discriminator; its output starts directly with the first field.  On
the all-zero record the 32 output bytes cannot be read as a header whose
u32 length field at offset 2 counts the bytes that follow. -/
theorem claim_C6_counterexample :
    TagData.encode ⟨[], 0, [], 0, 0⟩ = List.replicate 32 0 ∧
    ¬ hasEnvelopeHeader (TagData.encode ⟨[], 0, [], 0, 0⟩) := by
  constructor
  · decide
  · decide

/-- Claim C6 as amended: every encodable `EventEntry` and `ClientData`
value encodes to version byte 1, min-compatible byte 1, the payload length
as u32, the discriminator as u32 and then the payload, and that output has
the envelope header shape; `TagData::encode` instead begins directly with
the u32 byte count of its first field. -/
theorem claim_C6_wire_format :
    (∀ (e : EventEntry) (p : List Nat), Event.encodePayload e.event = some p →
      EventEntry.encode e = some ([1, 1] ++ encodeU32 (4 + p.length) ++
        (encodeU32 (Event.eventType e.event) ++ p)) ∧
      hasEnvelopeHeader ([1, 1] ++ encodeU32 (4 + p.length) ++
        (encodeU32 (Event.eventType e.event) ++ p))) ∧
    (∀ (c : ClientData) (p : List Nat),
      ClientMeta.encodePayload c.client_meta = some p →
      ClientData.encode c = some ([1, 1] ++ encodeU32 (4 + p.length) ++
        (encodeU32 (ClientMeta.clientMetaType c.client_meta) ++ p)) ∧
      hasEnvelopeHeader ([1, 1] ++ encodeU32 (4 + p.length) ++
        (encodeU32 (ClientMeta.clientMetaType c.client_meta) ++ p))) ∧
    (∀ t : TagData,
      (TagData.encode t).take 4 = encodeU32 t.cluster_id.length) := by
  have hdr : ∀ (d : Nat) (p : List Nat), hasEnvelopeHeader
      ([1, 1] ++ encodeU32 (4 + p.length) ++ (encodeU32 d ++ p)) := by
    intro d p
    constructor
    · simp [encodeU32]
    · have h2 : ([1, 1] ++ encodeU32 (4 + p.length) ++
          (encodeU32 d ++ p)).drop 2 =
          encodeU32 (4 + p.length) ++ (encodeU32 d ++ p) := rfl
      rw [h2, take_append_of_len _ _ 4 (length_encodeU32 _)]
      congr 1
      simp [encodeU32]
      omega
  refine ⟨?_, ?_, ?_⟩
  · intro e p hp
    refine ⟨?_, hdr _ p⟩
    simp [EventEntry.encode, hp, encodeEnvelope, length_encodeU32]
  · intro c p hp
    refine ⟨?_, hdr _ p⟩
    simp [ClientData.encode, hp, encodeEnvelope, length_encodeU32]
  · intro t
    rw [show TagData.encode t = encodeU32 t.cluster_id.length ++
      (t.cluster_id ++ (encodeI64 t.pool_id ++ (encodeBytesLV t.image_id ++
       (encodeU64 t.predecessor_tag_tid ++
        encodeU64 t.predecessor_entry_tid)))) by
      simp [TagData.encode, encodeBytesLV, List.append_assoc]]
    rw [take_append_of_len _ _ 4 (length_encodeU32 _)]

/-- Witness for C6 at a flush event, a CLI client record and a one-byte
tag cluster id. -/
theorem claim_C6_wire_format_witness :
    EventEntry.encode ⟨.aioFlush⟩ = some [1, 1, 4, 0, 0, 0, 2, 0, 0, 0] ∧
    ClientData.encode ⟨.cliClientMeta⟩ = some [1, 1, 4, 0, 0, 0, 2, 0, 0, 0] ∧
    (TagData.encode ⟨[49], 0, [], 0, 0⟩).take 4 = [1, 0, 0, 0] := by
  have h1 := claim_C6_wire_format.1 ⟨.aioFlush⟩ [] rfl
  have h2 := claim_C6_wire_format.2.1 ⟨.cliClientMeta⟩ [] rfl
  have h3 := claim_C6_wire_format.2.2 ⟨[49], 0, [], 0, 0⟩
  refine ⟨?_, ?_, ?_⟩
  · simpa [encodeU32] using h1.1
  · simpa [encodeU32] using h2.1
  · simpa [encodeU32] using h3

/-- Claim C7 counterexample: decoding discriminator 9999 yields the
placeholder, but `get_event_type` does not return 9999 (the visitor reads
the compile-time type constant of the placeholder, which stores nothing of
the decoded value), so the stringified type is not `Unknown (9999)`. -/
theorem claim_C7_counterexample :
    EventEntry.decode [1, 1, 4, 0, 0, 0, 15, 39, 0, 0] =
      .ok (⟨.unknown⟩, []) ∧
    EventEntry.get_event_type ⟨.unknown⟩ ≠ 9999 ∧
    eventTypeToString (EventEntry.get_event_type ⟨.unknown⟩) ≠
      "Unknown (9999)" := by
  refine ⟨rfl, by decide, by decide⟩

/-- Claim C7 as amended: decoding discriminator 9999 yields the
placeholder; `get_event_type` on it returns the fixed placeholder type
constant 4294967295, and the stringifier renders that constant as
`Unknown (4294967295)`. -/
theorem claim_C7_unknown_type_constant :
    EventEntry.decode [1, 1, 4, 0, 0, 0, 15, 39, 0, 0] =
      .ok (⟨.unknown⟩, []) ∧
    EventEntry.get_event_type ⟨.unknown⟩ = UNKNOWN_EVENT_TYPE ∧
    eventTypeToString (EventEntry.get_event_type ⟨.unknown⟩) =
      "Unknown (4294967295)" := by
  refine ⟨rfl, rfl, by decide⟩

/-- Claim C8: `OpFinishEvent` writes its operation id twice, once through
the shared `OpEventBase` group and once explicitly, then the result field;
decode reads them back in the same order, and a round trip through the
event envelope reproduces the value and the duplicated bytes without
collapsing them. -/
theorem claim_C8_opfinish_duplicate (op : Nat) (r : Int) (v : Nat)
    (rest : List Nat) (h1 : op < 18446744073709551616)
    (h2 : -2147483648 ≤ r) (h3 : r < 2147483648) :
    OpFinishEvent.encode ⟨op, r⟩ =
      encodeU64 op ++ encodeU64 op ++ encodeI32 r ∧
    OpFinishEvent.decode v (OpFinishEvent.encode ⟨op, r⟩ ++ rest) =
      .ok (⟨op, r⟩, rest) ∧
    EventEntry.encode ⟨.opFinish ⟨op, r⟩⟩ = some ([1, 1] ++ encodeU32 24 ++
      (encodeU32 3 ++ OpFinishEvent.encode ⟨op, r⟩)) ∧
    EventEntry.decode ([1, 1] ++ encodeU32 24 ++
      (encodeU32 3 ++ OpFinishEvent.encode ⟨op, r⟩)) =
      .ok (⟨.opFinish ⟨op, r⟩⟩, []) := by
  have hdec : ∀ (vv : Nat) (rs : List Nat),
      OpFinishEvent.decode vv (OpFinishEvent.encode ⟨op, r⟩ ++ rs) =
        .ok (⟨op, r⟩, rs) := by
    intro vv rs
    simp only [OpFinishEvent.encode, OpFinishEvent.decode, OpEventBase.encode,
      OpEventBase.decode, List.append_assoc, Bind.bind, Except.bind,
      decodeU64_encodeU64 _ _ h1, decodeI32_encodeI32 _ _ h2 h3, pure,
      Except.pure]
  have hlen : (OpFinishEvent.encode ⟨op, r⟩).length = 20 := by
    simp [OpFinishEvent.encode, OpEventBase.encode, encodeU64, encodeI32,
      encodeU32]
  refine ⟨rfl, hdec v rest, ?_, ?_⟩
  · simp [EventEntry.encode, Event.encodePayload, encodeEnvelope,
      Event.eventType, EVENT_TYPE_OP_FINISH, length_encodeU32, hlen]
  · have hp : decodeEventPayload 3 1
        (OpFinishEvent.encode ⟨op, r⟩ ++ ([] ++ [])) =
        .ok (.opFinish ⟨op, r⟩, [] ++ []) := by
      have hd0 : OpFinishEvent.decode 1 (OpFinishEvent.encode ⟨op, r⟩) =
          .ok (⟨op, r⟩, []) := by simpa using hdec 1 []
      simp only [List.append_nil, List.nil_append]
      simp [decodeEventPayload, EVENT_TYPE_AIO_DISCARD, EVENT_TYPE_AIO_WRITE,
        EVENT_TYPE_AIO_FLUSH, EVENT_TYPE_OP_FINISH, Bind.bind, Except.bind,
        hd0, pure, Except.pure]
    have h := eventEntry_decode_skip 3 (OpFinishEvent.encode ⟨op, r⟩) [] []
      (.opFinish ⟨op, r⟩) hp (by decide) (by simp [hlen])
    simpa [hlen] using h

/-- Witness for C8 at the fixture values op 123, result -1. -/
theorem claim_C8_opfinish_duplicate_witness :
    OpFinishEvent.encode ⟨123, -1⟩ =
      encodeU64 123 ++ encodeU64 123 ++ encodeI32 (-1) ∧
    OpFinishEvent.decode 1 (OpFinishEvent.encode ⟨123, -1⟩ ++ []) =
      .ok (⟨123, -1⟩, []) ∧
    EventEntry.encode ⟨.opFinish ⟨123, -1⟩⟩ = some ([1, 1] ++ encodeU32 24 ++
      (encodeU32 3 ++ OpFinishEvent.encode ⟨123, -1⟩)) ∧
    EventEntry.decode ([1, 1] ++ encodeU32 24 ++
      (encodeU32 3 ++ OpFinishEvent.encode ⟨123, -1⟩)) =
      .ok (⟨.opFinish ⟨123, -1⟩⟩, []) :=
  claim_C8_opfinish_duplicate 123 (-1) 1 [] (by decide) (by decide)
    (by decide)

/-- Claim C9 counterexample: `AioWriteEvent::dump` emits only `offset` and
`length`; no record for the `data` field of the data model is emitted. -/
theorem claim_C9_counterexample :
    (AioWriteEvent.dump ⟨123, 456, List.replicate 32 49⟩).map dumpKey =
      ["offset", "length"] ∧
    "data" ∉ (AioWriteEvent.dump ⟨123, 456, List.replicate 32 49⟩).map
      dumpKey := by
  refine ⟨rfl, by decide⟩

/-- Claim C9 as amended: each variant dump emits its data-model fields as
named unsigned, signed or string values, except `AioWriteEvent`, whose
dump omits the `data` blob and emits only `offset` and `length`; dump is a
pure function of the value. -/
theorem claim_C9_dump_fields :
    (∀ e : AioDiscardEvent, e.dump.map dumpKey = ["offset", "length"]) ∧
    (∀ e : AioWriteEvent, e.dump.map dumpKey = ["offset", "length"]) ∧
    (∀ e : OpFinishEvent,
      e.dump.map dumpKey = ["op_tid", "op_tid", "result"]) ∧
    (∀ e : SnapEventBase, e.dump.map dumpKey = ["op_tid", "snap_name"]) ∧
    (∀ e : SnapRenameEvent, e.dump.map dumpKey =
      ["op_tid", "snap_name", "src_snap_id", "dest_snap_name"]) ∧
    (∀ e : RenameEvent, e.dump.map dumpKey = ["op_tid", "image_name"]) ∧
    (∀ e : ResizeEvent, e.dump.map dumpKey = ["op_tid", "size"]) ∧
    (∀ e : OpEventBase, e.dump.map dumpKey = ["op_tid"]) ∧
    (∀ m : ImageClientMeta, m.dump.map dumpKey = ["tag_class"]) ∧
    (∀ m : MirrorPeerClientMeta,
      m.dump.map dumpKey = ["cluster_id", "pool_id", "image_id"]) ∧
    (∀ t : TagData, t.dump.map dumpKey = ["cluster_id", "pool_id",
      "image_id", "predecessor_tag_tid", "predecessor_entry_tid"]) :=
  ⟨fun _ => rfl, fun _ => rfl, fun _ => rfl, fun _ => rfl, fun _ => rfl,
   fun _ => rfl, fun _ => rfl, fun _ => rfl, fun _ => rfl, fun _ => rfl,
   fun _ => rfl⟩

/-- Claim C10: every per-variant decode ignores its version argument: for
any discriminator, any two versions and any payload bytes, the dispatched
payload decode yields the same value and the same remaining bytes. -/
theorem claim_C10_version_ignored (t v1 v2 : Nat) (l : List Nat) :
    decodeEventPayload t v1 l = decodeEventPayload t v2 l ∧
    decodeClientPayload t v1 l = decodeClientPayload t v2 l :=
  ⟨rfl, rfl⟩
